import Mathlib

/-
  Shallow embedding of sysmon.cpp (a /proc + ncurses system monitor).

  Modelling choices:
  * C++ `double` percentages are modelled as exact rationals (ℚ); the claims
    under study concern exact values, signs and orderings, not rounding.
  * `std::map<int, ProcInfo>` is modelled as a `List ProcInfo` in key order;
    `map::find` is `List.find?` on the pid field.
  * `unsigned long long` subtraction is modelled with an explicit wraparound
    at 2^64 (`usub64`), matching `new_total_cpu - old_total_cpu` in the source.
  * `std::sort` with the strict comparator `cmp` is modelled as
    `List.insertionSort` over the non-strict relation `¬ cmp b a`; for the
    lists the claims quantify over (pairwise-distinct pids) the comparator is
    a strict total order, for which every correct sort produces the same,
    unique output, so the choice of sorting algorithm is immaterial.
  * `int` quantities that the control flow keeps small (selection index,
    scroll offset, row counts) are modelled as `Int`.
-/

/-- One process's cumulative CPU tick counters (sysmon.cpp lines 50-53). -/
structure ProcTimes where
  utime : Nat
  stime : Nat
deriving DecidableEq

/-- A process entry as held by the monitor (sysmon.cpp lines 55-64). -/
structure ProcInfo where
  pid : Nat
  user : String
  name : String
  cpu_percent : ℚ
  mem_kb : Nat
  mem_percent : ℚ
  times : ProcTimes
  total_time : Nat
deriving DecidableEq

/-- The sort modes (sysmon.cpp line 66). -/
inductive SortMode where
  | cpu
  | mem
  | pid
deriving DecidableEq

/-- The raw, readable data for one pid as obtained from /proc
    (`read_proc_times`, sysmon.cpp lines 113-155); a process whose read
    fails is simply absent from the list (line 190 `continue`). -/
structure RawProc where
  pid : Nat
  user : String
  name : String
  utime : Nat
  stime : Nat
  rss_kb : Nat
deriving DecidableEq

/-- A default entry, used only as the `getD` fallback behind a bounds guard. -/
def dummyProc : ProcInfo :=
  { pid := 0, user := "", name := "", cpu_percent := 0, mem_kb := 0,
    mem_percent := 0, times := { utime := 0, stime := 0 }, total_time := 0 }

/-- Wrapping subtraction of two unsigned 64-bit counters (values < 2^64). -/
def usub64 (a b : Nat) : Nat := (2 ^ 64 + a - b) % 2 ^ 64

/-- Sum of the /proc/stat cpu fields (`total_cpu_time`, lines 92-96). -/
def total_cpu_time (fields : List Nat) : Nat := fields.foldl (· + ·) 0

/-- The idle+iowait sum read from the cpu fields (main, lines 431-433):
    fields[3] plus fields[4] when present, 0 when fewer than 4 fields. -/
def idle_sum (fields : List Nat) : Nat :=
  if 4 ≤ fields.length then
    fields.getD 3 0 + (if 4 < fields.length then fields.getD 4 0 else 0)
  else 0

/-- The denominator used for all CPU percentages: the wrapped difference of
    the two total-CPU counters, with 0 replaced by 1
    (lines 204-205 and 435-436). -/
def effective_total_delta (old_total new_total : Nat) : Nat :=
  let td := usub64 new_total old_total
  if td = 0 then 1 else td

/-- `oldp.find(pid)`: the previous cumulative tick total for `pid`, 0 when the
    pid is absent from the previous map (lines 209-211). -/
def lookup_old_total (oldp : List ProcInfo) (pid : Nat) : Nat :=
  match oldp.find? (fun p => p.pid == pid) with
  | some p => p.total_time
  | none => 0

/-- The per-entry body of `update_cpu_percent` (lines 206-216): the delta is
    `total_time - old_total` when the counter did not go backward, else 0,
    and `cpu_percent := 100 * delta / total_delta`. -/
def cpu_update_entry (oldp : List ProcInfo) (total_delta : Nat) (p : ProcInfo) : ProcInfo :=
  let old_total_proc := lookup_old_total oldp p.pid
  let delta_proc := if old_total_proc ≤ p.total_time then p.total_time - old_total_proc else 0
  { p with cpu_percent := 100 * (delta_proc : ℚ) / (total_delta : ℚ) }

/-- `update_cpu_percent` (sysmon.cpp lines 203-217). -/
def update_cpu_percent (oldp newp : List ProcInfo) (old_total new_total : Nat) :
    List ProcInfo :=
  newp.map (cpu_update_entry oldp (effective_total_delta old_total new_total))

/-- Building one `ProcInfo` from raw /proc data (`collect_processes` loop body,
    lines 183-199): `total_time = utime + stime`, and `mem_percent` computed
    from the current memory total when it is positive. -/
def mk_procinfo (mem_total_kb : Nat) (r : RawProc) : ProcInfo :=
  { pid := r.pid, user := r.user, name := r.name, cpu_percent := 0,
    mem_kb := r.rss_kb,
    mem_percent := if 0 < mem_total_kb then 100 * (r.rss_kb : ℚ) / (mem_total_kb : ℚ) else 0,
    times := { utime := r.utime, stime := r.stime },
    total_time := r.utime + r.stime }

/-- `collect_processes` (sysmon.cpp lines 180-201): the map is cleared and
    rebuilt from exactly the readable pids of the current enumeration. -/
def collect_processes (raws : List RawProc) (mem_total_kb : Nat) : List ProcInfo :=
  raws.map (mk_procinfo mem_total_kb)

/-- The per-entry mem_percent recomputation applied to the view vector
    (main, lines 445-448). -/
def mem_update_entry (mem_total_kb : Nat) (p : ProcInfo) : ProcInfo :=
  { p with
    mem_percent := if 0 < mem_total_kb then 100 * (p.mem_kb : ℚ) / (mem_total_kb : ℚ) else 0 }

/-- The strict comparator passed to `std::sort` by `sort_processes`
    (sysmon.cpp lines 277-293), one lambda per mode. -/
def cmpProc (mode : SortMode) (a b : ProcInfo) : Bool :=
  match mode with
  | SortMode.cpu =>
      if a.cpu_percent = b.cpu_percent then decide (a.pid < b.pid)
      else decide (b.cpu_percent < a.cpu_percent)
  | SortMode.mem =>
      if a.mem_percent = b.mem_percent then decide (a.pid < b.pid)
      else decide (b.mem_percent < a.mem_percent)
  | SortMode.pid => decide (a.pid < b.pid)

/-- The non-strict order induced by the comparator: `a` may precede `b`
    exactly when `b` need not strictly precede `a`. -/
def procLE (mode : SortMode) (a b : ProcInfo) : Prop := cmpProc mode b a = false

instance procLE.decidableRel (mode : SortMode) : DecidableRel (procLE mode) :=
  fun _ _ => instDecidableEqBool _ _

/-- `sort_processes` (sysmon.cpp lines 277-293). -/
def sort_processes (mode : SortMode) (l : List ProcInfo) : List ProcInfo :=
  List.insertionSort (procLE mode) l

/-- The mutable state owned by `main`'s loop (sysmon.cpp lines 357-374). -/
structure LoopState where
  sort_mode : SortMode
  selected : Int
  page_offset : Int
  old_procs : List ProcInfo
  cur_procs : List ProcInfo
  old_cpu_fields : List Nat
  old_total_cpu : Nat
  total_cpu_percent : ℚ
  last_refresh : Int
deriving DecidableEq

/-- One sampling of the external world consumed by a refresh cycle:
    the /proc/stat cpu fields, the memory total, and the readable processes. -/
structure RefreshIn where
  cpu_fields : List Nat
  mem_total_kb : Nat
  raws : List RawProc
deriving DecidableEq

/-- KEY_UP handler (sysmon.cpp line 381). -/
def handle_key_up (st : LoopState) : LoopState :=
  let sel := if 0 < st.selected then st.selected - 1 else st.selected
  let po := if sel < st.page_offset then sel else st.page_offset
  { st with selected := sel, page_offset := po }

/-- KEY_DOWN handler (sysmon.cpp line 382): unconditional increment. -/
def handle_key_down (st : LoopState) : LoopState :=
  { st with selected := st.selected + 1 }

/-- Page-down handler (sysmon.cpp lines 383-386); `body_rows` is the body
    window height minus 3. -/
def handle_page_down (st : LoopState) (body_rows : Int) : LoopState :=
  { st with selected := st.selected + max 1 body_rows }

/-- Page-up handler (sysmon.cpp line 387). -/
def handle_page_up (st : LoopState) (body_rows : Int) : LoopState :=
  let sel := st.selected - max 1 body_rows
  { st with selected := if sel < 0 then 0 else sel }

/-- The sort-mode cycle CPU → MEM → PID → CPU (sysmon.cpp lines 388-392). -/
def next_sort : SortMode → SortMode
  | SortMode.cpu => SortMode.mem
  | SortMode.mem => SortMode.pid
  | SortMode.pid => SortMode.cpu

/-- The s-key handler (sysmon.cpp lines 388-392). -/
def handle_toggle_sort (st : LoopState) : LoopState :=
  { st with sort_mode := next_sort st.sort_mode }

/-- The r-key handler (sysmon.cpp lines 393-395): backdate `last_refresh` so
    the next loop iteration refreshes immediately. -/
def handle_force_refresh (st : LoopState) (now refresh_sec : Int) : LoopState :=
  { st with last_refresh := now - refresh_sec }

/-- The list the k-key handler rebuilds to locate its target (lines 401-403):
    the values of the current process map, sorted under the current mode. -/
def kill_view (st : LoopState) : List ProcInfo :=
  sort_processes st.sort_mode st.cur_procs

/-- The k-key handler (sysmon.cpp lines 396-410). Returns the new state and,
    when the bounds guard passes, the pid handed to `confirm_kill`; `none`
    means no dialog was opened and no signal could be sent. -/
def handle_kill (st : LoopState) (now refresh_sec : Int) : LoopState × Option Nat :=
  let pv := kill_view st
  if 0 ≤ st.selected ∧ st.selected < (pv.length : Int) then
    (handle_force_refresh st now refresh_sec, some ((pv.getD st.selected.toNat dummyProc).pid))
  else (st, none)

/-- One refresh cycle (sysmon.cpp lines 415-472): read counters, rebuild the
    process map, compute cpu percentages against the stored previous map,
    compute the system cpu percent, build/sort the view vector, clamp the
    selection, adjust the scroll offset, and replace previous with current.
    Returns the new state together with the rendered (sorted) list. -/
def refresh_cycle (st : LoopState) (inp : RefreshIn) (body_rows_raw : Int) (now : Int) :
    LoopState × List ProcInfo :=
  let cur_total := total_cpu_time inp.cpu_fields
  let cur := update_cpu_percent st.old_procs
    (collect_processes inp.raws inp.mem_total_kb) st.old_total_cpu cur_total
  let old_idle := idle_sum st.old_cpu_fields
  let cur_idle := idle_sum inp.cpu_fields
  let idle_delta := usub64 cur_idle old_idle
  let total_delta := effective_total_delta st.old_total_cpu cur_total
  let tcp : ℚ := 100 * (1 - (idle_delta : ℚ) / (total_delta : ℚ))
  let pv := sort_processes st.sort_mode (cur.map (mem_update_entry inp.mem_total_kb))
  let sel1 := if (pv.length : Int) ≤ st.selected then max 0 ((pv.length : Int) - 1) else st.selected
  let sel2 := if sel1 < 0 then 0 else sel1
  let body_rows := if body_rows_raw < 1 then 1 else body_rows_raw
  let po :=
    if sel2 < st.page_offset then sel2
    else if st.page_offset + body_rows ≤ sel2 then sel2 - body_rows + 1
    else st.page_offset
  ({ st with
      selected := sel2
      page_offset := po
      old_procs := cur
      cur_procs := cur
      old_cpu_fields := inp.cpu_fields
      old_total_cpu := total_cpu_time inp.cpu_fields
      total_cpu_percent := tcp
      last_refresh := now }, pv)

/-- Whether a character is one of the whitespace characters `std::stoi`
    skips before the number. -/
def isSpaceChar (c : Char) : Bool :=
  c = ' ' ∨ c = '\t' ∨ c = '\n' ∨ c = '\x0b' ∨ c = '\x0c' ∨ c = '\r'

/-- Decimal digit test. -/
def isDigitChar (c : Char) : Bool := '0' ≤ c ∧ c ≤ '9'

/-- Value of the maximal digit prefix, `none` when it is empty. -/
def parse_digits (cs : List Char) : Option Nat :=
  let ds := cs.takeWhile isDigitChar
  if ds.isEmpty then none
  else some (ds.foldl (fun a c => 10 * a + (c.toNat - 48)) 0)

/-- The mathematical integer `std::stoi` would read from the string: skip
    leading whitespace, an optional sign, then a nonempty digit run
    (`none` models `std::invalid_argument`). The int-range check is applied
    separately in `stoi_model`. -/
def parse_int (cs : List Char) : Option Int :=
  let cs := cs.dropWhile isSpaceChar
  match cs with
  | '-' :: rest => (parse_digits rest).map (fun n => -(n : Int))
  | '+' :: rest => (parse_digits rest).map (fun n => (n : Int))
  | _ => (parse_digits cs).map (fun n => (n : Int))

/-- `std::stoi` on a 32-bit `int`: `none` models both thrown exceptions
    (`invalid_argument` and `out_of_range`), which line 339 catches alike. -/
def stoi_model (cs : List Char) : Option Int :=
  (parse_int cs).bind (fun v => if -(2 ^ 31) ≤ v ∧ v < 2 ^ 31 then some v else none)

/-- The refresh-interval actually used, from the optional first argument
    (sysmon.cpp lines 337-340): default 2, parse failure 2, parsed values
    below 1 clamped to 1. -/
def refresh_of_arg (arg : Option (List Char)) : Int :=
  match arg with
  | none => 2
  | some cs =>
    match stoi_model cs with
    | none => 2
    | some v => if v < 1 then 1 else v

/-- The value `main` returns on normal quit (sysmon.cpp line 483). -/
def quit_exit_code : Int := 0

/-- A loop state as just after `main`'s initialisation (lines 357-366) with a
    zero initial CPU reading: CPU sort, selection and scroll at 0, both
    process maps empty, no previous counters. -/
def st0 : LoopState :=
  { sort_mode := SortMode.cpu, selected := 0, page_offset := 0, old_procs := [],
    cur_procs := [], old_cpu_fields := [0, 0, 0, 0], old_total_cpu := 0,
    total_cpu_percent := 0, last_refresh := 0 }

/-- A process that used 50 ticks and 100 KB resident. -/
def raw1 : RawProc :=
  { pid := 1, user := "u", name := "p1", utime := 50, stime := 0, rss_kb := 100 }

/-- The same pid as `raw1` but with no ticks yet. -/
def raw1z : RawProc :=
  { pid := 1, user := "u", name := "p1", utime := 0, stime := 0, rss_kb := 100 }

/-- A process with 7 ticks and 900 KB resident. -/
def raw2 : RawProc :=
  { pid := 2, user := "u", name := "p2", utime := 7, stime := 0, rss_kb := 900 }

/-- A snapshot with one never-before-seen process that has 50 cumulative
    ticks, over a 100-tick system delta. -/
def inpC1 : RefreshIn :=
  { cpu_fields := [100, 0, 0, 0], mem_total_kb := 1000, raws := [raw1] }

/-- A previous state whose counters equal those of `inpC2` exactly. -/
def stC2 : LoopState :=
  { st0 with old_procs := collect_processes [raw2] 1000,
             old_cpu_fields := [10, 5, 3, 7, 2], old_total_cpu := 27 }

/-- The current snapshot for the equal-counters scenario. -/
def inpC2 : RefreshIn :=
  { cpu_fields := [10, 5, 3, 7, 2], mem_total_kb := 1000, raws := [raw2] }

/-- A first-seen process whose cumulative ticks (200) exceed the 100-tick
    system delta. -/
def pBig : ProcInfo :=
  mk_procinfo 1000 { pid := 3, user := "u", name := "pb", utime := 200, stime := 0, rss_kb := 1 }

/-- Previous entry for pid 4 with 10 cumulative ticks. -/
def pOld4 : ProcInfo :=
  mk_procinfo 1000 { pid := 4, user := "u", name := "p4", utime := 10, stime := 0, rss_kb := 1 }

/-- Current entry for pid 4 whose counter went backward (3 < 10). -/
def pNew4 : ProcInfo :=
  mk_procinfo 1000 { pid := 4, user := "u", name := "p4", utime := 3, stime := 0, rss_kb := 1 }

/-- Previous state for the kill/sort-toggle scenario: pid 1 at 0 ticks,
    pid 2 at 7 ticks, no system ticks yet. -/
def stC4 : LoopState :=
  { st0 with old_procs := [mk_procinfo 1000 raw1z, mk_procinfo 1000 raw2] }

/-- Current snapshot for the kill/sort-toggle scenario: pid 1 advanced by 50
    ticks (50% CPU, 10% memory), pid 2 unchanged (0% CPU, 90% memory). -/
def inpC4 : RefreshIn :=
  { cpu_fields := [100, 0, 0, 0], mem_total_kb := 1000, raws := [raw1, raw2] }

/-- The state after rendering a one-entry list. -/
def stC5 : LoopState := (refresh_cycle st0 inpC1 20 0).1

/-- Snapshot in which a process holds 800,000 KB out of 8,000,000 KB. -/
def inpC8 : RefreshIn :=
  { cpu_fields := [100, 0, 0, 0], mem_total_kb := 8000000,
    raws := [{ pid := 5, user := "u", name := "m", utime := 0, stime := 0, rss_kb := 800000 }] }

/-- The decimal digits of 2^31, a value `int` cannot hold. -/
def argBig : List Char := ['2', '1', '4', '7', '4', '8', '3', '6', '4', '8']

/-- A state whose process map is empty while the selection index is 3. -/
def stC10 : LoopState := { st0 with selected := 3 }

/-- A state with a single process and the selection on it. -/
def stKill : LoopState := { st0 with cur_procs := [dummyProc] }

/-- The metric key each sort mode compares before falling back to the pid. -/
def keyOf (mode : SortMode) (p : ProcInfo) : ℚ :=
  match mode with
  | SortMode.cpu => p.cpu_percent
  | SortMode.mem => p.mem_percent
  | SortMode.pid => 0

lemma cmpProc_eq_true_iff (mode : SortMode) (a b : ProcInfo) :
    cmpProc mode a b = true ↔
      (keyOf mode b < keyOf mode a ∨ (keyOf mode a = keyOf mode b ∧ a.pid < b.pid)) := by
  cases mode <;> simp only [cmpProc, keyOf]
  · split
    · rename_i h
      simp [h]
    · rename_i h
      simp only [decide_eq_true_eq]
      constructor
      · intro hlt
        exact Or.inl hlt
      · rintro (hlt | ⟨heq, _⟩)
        · exact hlt
        · exact absurd heq h
  · split
    · rename_i h
      simp [h]
    · rename_i h
      simp only [decide_eq_true_eq]
      constructor
      · intro hlt
        exact Or.inl hlt
      · rintro (hlt | ⟨heq, _⟩)
        · exact hlt
        · exact absurd heq h
  · simp

lemma cmpProc_eq_false_iff (mode : SortMode) (a b : ProcInfo) :
    cmpProc mode a b = false ↔
      (keyOf mode a < keyOf mode b ∨ (keyOf mode a = keyOf mode b ∧ b.pid ≤ a.pid)) := by
  rw [← Bool.not_eq_true, cmpProc_eq_true_iff]
  push_neg
  constructor
  · rintro ⟨h1, h2⟩
    rcases lt_or_eq_of_le h1 with h | h
    · exact Or.inl h
    · exact Or.inr ⟨h, h2 h⟩
  · rintro (h | ⟨h1, h2⟩)
    · exact ⟨le_of_lt h, fun he => absurd he (ne_of_lt h)⟩
    · exact ⟨le_of_eq h1, fun _ => h2⟩

lemma procLE_iff (mode : SortMode) (a b : ProcInfo) :
    procLE mode a b ↔
      (keyOf mode b < keyOf mode a ∨ (keyOf mode b = keyOf mode a ∧ a.pid ≤ b.pid)) := by
  unfold procLE
  exact cmpProc_eq_false_iff mode b a

lemma procLE_total (mode : SortMode) : ∀ a b : ProcInfo, procLE mode a b ∨ procLE mode b a := by
  intro a b
  rw [procLE_iff, procLE_iff]
  rcases lt_trichotomy (keyOf mode a) (keyOf mode b) with h | h | h
  · exact Or.inr (Or.inl h)
  · rcases Nat.le_total a.pid b.pid with hp | hp
    · exact Or.inl (Or.inr ⟨h.symm, hp⟩)
    · exact Or.inr (Or.inr ⟨h, hp⟩)
  · exact Or.inl (Or.inl h)

lemma procLE_trans (mode : SortMode) :
    ∀ a b c : ProcInfo, procLE mode a b → procLE mode b c → procLE mode a c := by
  intro a b c hab hbc
  rw [procLE_iff] at hab hbc ⊢
  rcases hab with h1 | ⟨h1, h1p⟩ <;> rcases hbc with h2 | ⟨h2, h2p⟩
  · exact Or.inl (h2.trans h1)
  · exact Or.inl (lt_of_le_of_lt (le_of_eq h2) h1)
  · exact Or.inl (lt_of_lt_of_le h2 (le_of_eq h1))
  · exact Or.inr ⟨h2.trans h1, Nat.le_trans h1p h2p⟩

lemma procLE_antisymm_pid (mode : SortMode) (a b : ProcInfo)
    (h1 : procLE mode a b) (h2 : procLE mode b a) : a.pid = b.pid := by
  rw [procLE_iff] at h1 h2
  rcases h1 with h1 | ⟨h1, h1p⟩
  · rcases h2 with h2 | ⟨h2, _⟩
    · exact absurd (h1.trans h2) (lt_irrefl _)
    · exact absurd h2 (ne_of_gt h1)
  · rcases h2 with h2 | ⟨_, h2p⟩
    · exact absurd h1.symm (ne_of_lt h2)
    · exact Nat.le_antisymm h1p h2p

lemma sorted_perm_eq_on {α : Type} {r : α → α → Prop} :
    ∀ (l₁ l₂ : List α), l₁.Perm l₂ → List.Sorted r l₁ → List.Sorted r l₂ →
      (∀ a ∈ l₁, ∀ b ∈ l₁, r a b → r b a → a = b) → l₁ = l₂ := by
  intro l₁
  induction l₁ with
  | nil =>
    intro l₂ hp _ _ _
    exact hp.nil_eq
  | cons a t ih =>
    intro l₂ hp hs₁ hs₂ hanti
    cases l₂ with
    | nil => exact absurd hp.symm.nil_eq (by simp)
    | cons b t₂ =>
      have hb1 : b ∈ a :: t := hp.mem_iff.mpr (List.mem_cons_self b t₂)
      have ha2 : a ∈ b :: t₂ := hp.mem_iff.mp (List.mem_cons_self a t)
      have hab : a = b := by
        rcases List.mem_cons.mp hb1 with h | h
        · exact h.symm
        · rcases List.mem_cons.mp ha2 with h' | h'
          · exact h'
          · have r1 : r a b := List.rel_of_sorted_cons hs₁ b h
            have r2 : r b a := List.rel_of_sorted_cons hs₂ a h'
            exact hanti a (List.mem_cons_self a t) b hb1 r1 r2
      subst hab
      have ht : t.Perm t₂ := (List.perm_cons a).mp hp
      have hrec := ih t₂ ht hs₁.of_cons hs₂.of_cons
        (fun x hx y hy => hanti x (List.mem_cons_of_mem a hx) y (List.mem_cons_of_mem a hy))
      rw [hrec]

lemma sort_processes_perm (mode : SortMode) (l : List ProcInfo) :
    (sort_processes mode l).Perm l :=
  List.perm_insertionSort (procLE mode) l

lemma sort_processes_sorted (mode : SortMode) (l : List ProcInfo) :
    List.Sorted (procLE mode) (sort_processes mode l) := by
  haveI : IsTotal ProcInfo (procLE mode) := ⟨procLE_total mode⟩
  haveI : IsTrans ProcInfo (procLE mode) := ⟨procLE_trans mode⟩
  exact List.sorted_insertionSort (procLE mode) l

lemma mem_sort_processes (mode : SortMode) (l : List ProcInfo) (p : ProcInfo) :
    p ∈ sort_processes mode l ↔ p ∈ l :=
  List.mem_insertionSort (procLE mode)

lemma usub64_self (a : Nat) : usub64 a a = 0 := by
  unfold usub64
  have h : 2 ^ 64 + a - a = 2 ^ 64 := by omega
  rw [h, Nat.mod_self]

lemma effective_total_delta_pos (a b : Nat) : 0 < effective_total_delta a b := by
  unfold effective_total_delta
  dsimp only
  split
  · exact Nat.zero_lt_one
  · rename_i h
    exact Nat.pos_of_ne_zero h

lemma cpu_update_entry_pid (oldp : List ProcInfo) (td : Nat) (p : ProcInfo) :
    (cpu_update_entry oldp td p).pid = p.pid := rfl

lemma cpu_update_entry_mem_kb (oldp : List ProcInfo) (td : Nat) (p : ProcInfo) :
    (cpu_update_entry oldp td p).mem_kb = p.mem_kb := rfl

lemma cpu_update_entry_mem_percent (oldp : List ProcInfo) (td : Nat) (p : ProcInfo) :
    (cpu_update_entry oldp td p).mem_percent = p.mem_percent := rfl

lemma mem_update_entry_pid (m : Nat) (p : ProcInfo) :
    (mem_update_entry m p).pid = p.pid := rfl

lemma mem_update_entry_cpu_percent (m : Nat) (p : ProcInfo) :
    (mem_update_entry m p).cpu_percent = p.cpu_percent := rfl

lemma mem_update_entry_mem_kb (m : Nat) (p : ProcInfo) :
    (mem_update_entry m p).mem_kb = p.mem_kb := rfl

lemma mk_procinfo_pid (m : Nat) (r : RawProc) : (mk_procinfo m r).pid = r.pid := rfl

lemma lookup_old_total_of_not_mem (oldp : List ProcInfo) (pid : Nat)
    (h : ∀ r ∈ oldp, r.pid ≠ pid) : lookup_old_total oldp pid = 0 := by
  unfold lookup_old_total
  have hfind : oldp.find? (fun p => p.pid == pid) = none := by
    apply List.find?_eq_none.mpr
    intro x hx
    simpa using h x hx
  rw [hfind]

/-- Idempotence of the view-vector mem_percent recomputation on entries that
    `collect_processes` built with the same memory total. -/
lemma mem_update_entry_collect (m : Nat) (oldp : List ProcInfo) (td : Nat) (r : RawProc) :
    mem_update_entry m (cpu_update_entry oldp td (mk_procinfo m r)) =
      cpu_update_entry oldp td (mk_procinfo m r) := by
  unfold mem_update_entry cpu_update_entry mk_procinfo
  simp

/-- The cpu_percent written by `cpu_update_entry`. -/
lemma cpu_update_entry_cpu_percent (oldp : List ProcInfo) (td : Nat) (p : ProcInfo) :
    (cpu_update_entry oldp td p).cpu_percent =
      100 * ((if lookup_old_total oldp p.pid ≤ p.total_time then
        p.total_time - lookup_old_total oldp p.pid else 0 : Nat) : ℚ) / (td : ℚ) := rfl

lemma effective_total_delta_self (a : Nat) : effective_total_delta a a = 1 := by
  unfold effective_total_delta
  simp [usub64_self]

/-- Claim C1 (counterexample): on the refresh cycle in which pid 1 is observed
    for the first time — the previous process map is empty — the computed
    cpu_percent is 50, not 0: the code uses the full cumulative counter as the
    first delta instead of reporting 0%. -/
theorem c1_counterexample :
    st0.old_procs = [] ∧
    (refresh_cycle st0 inpC1 20 0).2.map (fun p => (p.pid, p.cpu_percent)) = [(1, 50)] ∧
    (50 : ℚ) ≠ 0 := by
  refine ⟨rfl, ?_, by norm_num⟩
  norm_num [refresh_cycle, st0, inpC1, raw1, total_cpu_time, idle_sum, usub64,
    effective_total_delta, update_cpu_percent, collect_processes, mk_procinfo,
    cpu_update_entry, lookup_old_total, mem_update_entry, sort_processes]

/-- Claim C1 (amended): a pid absent from the previous process map gets
    cpu_percent = 100 × its full cumulative ticks / total_delta (a zero
    baseline), so its first-cycle percentage is 0 only when its cumulative
    counter is 0. -/
theorem c1_new_pid_zero_baseline (oldp newp : List ProcInfo) (old_total new_total : Nat)
    (p : ProcInfo) (hp : p ∈ newp) (hnew : ∀ r ∈ oldp, r.pid ≠ p.pid) :
    ∃ q ∈ update_cpu_percent oldp newp old_total new_total,
      q.pid = p.pid ∧
      q.cpu_percent =
        100 * (p.total_time : ℚ) / (effective_total_delta old_total new_total : ℚ) ∧
      (q.cpu_percent = 0 ↔ p.total_time = 0) := by
  have htdq : (0 : ℚ) < (effective_total_delta old_total new_total : ℚ) := by
    exact_mod_cast effective_total_delta_pos old_total new_total
  have hcpu : (cpu_update_entry oldp (effective_total_delta old_total new_total) p).cpu_percent =
      100 * (p.total_time : ℚ) / (effective_total_delta old_total new_total : ℚ) := by
    rw [cpu_update_entry_cpu_percent, lookup_old_total_of_not_mem oldp p.pid hnew]
    simp
  refine ⟨cpu_update_entry oldp (effective_total_delta old_total new_total) p,
    List.mem_map_of_mem _ hp, rfl, hcpu, ?_⟩
  rw [hcpu]
  constructor
  · intro h
    rcases div_eq_zero_iff.mp h with h' | h'
    · rcases mul_eq_zero.mp h' with h'' | h''
      · norm_num at h''
      · exact_mod_cast h''
    · exact absurd h' (ne_of_gt htdq)
  · intro h
    rw [h]
    norm_num

/-- Witness for C1 (amended) at a concrete first-seen process. -/
theorem c1_witness :
    mk_procinfo 1000 raw1 ∈ [mk_procinfo 1000 raw1] ∧
    (∀ r ∈ ([] : List ProcInfo), r.pid ≠ (mk_procinfo 1000 raw1).pid) ∧
    ∃ q ∈ update_cpu_percent [] [mk_procinfo 1000 raw1] 0 100,
      q.pid = (mk_procinfo 1000 raw1).pid ∧
      q.cpu_percent = 100 * ((mk_procinfo 1000 raw1).total_time : ℚ) /
        (effective_total_delta 0 100 : ℚ) ∧
      (q.cpu_percent = 0 ↔ (mk_procinfo 1000 raw1).total_time = 0) :=
  ⟨by simp, by simp,
   c1_new_pid_zero_baseline [] [mk_procinfo 1000 raw1] 0 100 (mk_procinfo 1000 raw1)
     (by simp) (by simp)⟩

/-- Claim C2 (counterexample): with two identical snapshots (all cumulative
    counters equal, so total_delta = 0 is substituted by 1), the system-wide
    CPU percent the code derives is 100, not 0. -/
theorem c2_counterexample :
    stC2.old_cpu_fields = inpC2.cpu_fields ∧
    stC2.old_procs = collect_processes inpC2.raws inpC2.mem_total_kb ∧
    (refresh_cycle stC2 inpC2 20 0).1.total_cpu_percent = 100 ∧
    (100 : ℚ) ≠ 0 := by
  refine ⟨rfl, rfl, ?_, by norm_num⟩
  show (100 : ℚ) * (1 -
      (usub64 (idle_sum inpC2.cpu_fields) (idle_sum stC2.old_cpu_fields) : ℚ) /
      (effective_total_delta stC2.old_total_cpu (total_cpu_time inpC2.cpu_fields) : ℚ)) = 100
  norm_num [stC2, inpC2, st0, idle_sum, usub64, effective_total_delta, total_cpu_time]

/-- Claim C2 (amended): for a pair of snapshots with equal cumulative
    counters (total_delta = 0, substituted to 1) every per-process
    cpu_percent is 0, while the system-wide percent evaluates to
    100 × (1 − 0/1) = 100 rather than 0. -/
theorem c2_equal_counters (st : LoopState) (inp : RefreshIn) (b now : Int)
    (hf : st.old_cpu_fields = inp.cpu_fields)
    (ht : st.old_total_cpu = total_cpu_time inp.cpu_fields)
    (hproc : ∀ q ∈ collect_processes inp.raws inp.mem_total_kb,
      lookup_old_total st.old_procs q.pid = q.total_time) :
    (refresh_cycle st inp b now).1.total_cpu_percent = 100 ∧
    ∀ p ∈ (refresh_cycle st inp b now).2, p.cpu_percent = 0 := by
  constructor
  · show (100 : ℚ) * (1 -
      (usub64 (idle_sum inp.cpu_fields) (idle_sum st.old_cpu_fields) : ℚ) /
      (effective_total_delta st.old_total_cpu (total_cpu_time inp.cpu_fields) : ℚ)) = 100
    rw [hf, ht, usub64_self, effective_total_delta_self]
    norm_num
  · intro p hp
    have hp' : p ∈ sort_processes st.sort_mode
        ((update_cpu_percent st.old_procs (collect_processes inp.raws inp.mem_total_kb)
          st.old_total_cpu (total_cpu_time inp.cpu_fields)).map
            (mem_update_entry inp.mem_total_kb)) := hp
    rw [mem_sort_processes] at hp'
    obtain ⟨q0, hq0, rfl⟩ := List.mem_map.mp hp'
    rw [mem_update_entry_cpu_percent]
    unfold update_cpu_percent at hq0
    obtain ⟨q, hq, rfl⟩ := List.mem_map.mp hq0
    rw [cpu_update_entry_cpu_percent, hproc q hq]
    simp

/-- Witness for C2 (amended) at the concrete equal-counters state. -/
theorem c2_witness :
    stC2.old_cpu_fields = inpC2.cpu_fields ∧
    stC2.old_total_cpu = total_cpu_time inpC2.cpu_fields ∧
    (∀ q ∈ collect_processes inpC2.raws inpC2.mem_total_kb,
      lookup_old_total stC2.old_procs q.pid = q.total_time) ∧
    ((refresh_cycle stC2 inpC2 20 0).1.total_cpu_percent = 100 ∧
     ∀ p ∈ (refresh_cycle stC2 inpC2 20 0).2, p.cpu_percent = 0) :=
  ⟨by decide, by decide, by decide,
   c2_equal_counters stC2 inpC2 20 0 (by decide) (by decide) (by decide)⟩

/-- Claim C3 (counterexample): nothing clamps cpu_percent to 100 — a process
    first seen with 200 cumulative ticks over a 100-tick system delta is
    reported at 200%. -/
theorem c3_counterexample :
    (update_cpu_percent [] [pBig] 0 100).map (fun p => p.cpu_percent) = [200] ∧
    ¬((200 : ℚ) ≤ 100) := by
  refine ⟨?_, by norm_num⟩
  norm_num [update_cpu_percent, cpu_update_entry, lookup_old_total,
    effective_total_delta, usub64, pBig, mk_procinfo]

/-- Claim C3 (amended): a backward-moving per-process counter yields a 0
    delta (no unsigned underflow) hence 0%; every cpu_percent is ≥ 0; and
    cpu_percent ≤ 100 holds whenever the per-process delta does not exceed
    the system total_delta (the code performs no clamping beyond that). -/
theorem c3_no_underflow_nonneg (oldp : List ProcInfo) (old_total new_total : Nat)
    (p : ProcInfo) :
    (p.total_time < lookup_old_total oldp p.pid →
      (cpu_update_entry oldp (effective_total_delta old_total new_total) p).cpu_percent = 0) ∧
    0 ≤ (cpu_update_entry oldp (effective_total_delta old_total new_total) p).cpu_percent ∧
    (p.total_time - lookup_old_total oldp p.pid ≤ effective_total_delta old_total new_total →
      (cpu_update_entry oldp (effective_total_delta old_total new_total) p).cpu_percent ≤ 100) := by
  have htdpos : 0 < effective_total_delta old_total new_total :=
    effective_total_delta_pos old_total new_total
  have htdq : (0 : ℚ) < (effective_total_delta old_total new_total : ℚ) := by
    exact_mod_cast htdpos
  refine ⟨?_, ?_, ?_⟩
  · intro hlt
    rw [cpu_update_entry_cpu_percent, if_neg (by omega)]
    simp
  · rw [cpu_update_entry_cpu_percent]
    apply div_nonneg _ (le_of_lt htdq)
    positivity
  · intro hle
    rw [cpu_update_entry_cpu_percent]
    have hdle : (if lookup_old_total oldp p.pid ≤ p.total_time then
        p.total_time - lookup_old_total oldp p.pid else 0 : Nat) ≤
        effective_total_delta old_total new_total := by
      split
      · exact hle
      · omega
    rw [div_le_iff₀ htdq]
    have hq : ((if lookup_old_total oldp p.pid ≤ p.total_time then
        p.total_time - lookup_old_total oldp p.pid else 0 : Nat) : ℚ) ≤
        (effective_total_delta old_total new_total : ℚ) := by exact_mod_cast hdle
    nlinarith

/-- Witness for C3 (amended) at a concrete backward-counter process. -/
theorem c3_witness :
    pNew4.total_time < lookup_old_total [pOld4] pNew4.pid ∧
    (cpu_update_entry [pOld4] (effective_total_delta 0 100) pNew4).cpu_percent = 0 ∧
    0 ≤ (cpu_update_entry [pOld4] (effective_total_delta 0 100) pNew4).cpu_percent ∧
    pNew4.total_time - lookup_old_total [pOld4] pNew4.pid ≤ effective_total_delta 0 100 ∧
    (cpu_update_entry [pOld4] (effective_total_delta 0 100) pNew4).cpu_percent ≤ 100 :=
  ⟨by decide,
   (c3_no_underflow_nonneg [pOld4] 0 100 pNew4).1 (by decide),
   (c3_no_underflow_nonneg [pOld4] 0 100 pNew4).2.1,
   by decide,
   (c3_no_underflow_nonneg [pOld4] 0 100 pNew4).2.2 (by decide)⟩

lemma mem_update_map_update_cpu (oldp : List ProcInfo) (ot nt m : Nat) (raws : List RawProc) :
    (update_cpu_percent oldp (collect_processes raws m) ot nt).map (mem_update_entry m) =
      update_cpu_percent oldp (collect_processes raws m) ot nt := by
  unfold update_cpu_percent collect_processes
  simp only [List.map_map]
  apply List.map_congr_left
  intro r _
  simp only [Function.comp_apply]
  exact mem_update_entry_collect m oldp (effective_total_delta ot nt) r

/-- Claim C4 (counterexample): a sort-mode toggle between the last render and
    the kill keypress makes the list rebuilt at kill time differ from the last
    rendered list, and the pid handed to the kill dialog (2) differs from the
    pid at the selection index of the last rendered list (1). -/
theorem c4_counterexample :
    (kill_view (handle_toggle_sort (refresh_cycle stC4 inpC4 20 0).1)).map (fun p => p.pid)
      = [2, 1] ∧
    (refresh_cycle stC4 inpC4 20 0).2.map (fun p => p.pid) = [1, 2] ∧
    (handle_kill (handle_toggle_sort (refresh_cycle stC4 inpC4 20 0).1) 0 2).2 = some 2 ∧
    ((refresh_cycle stC4 inpC4 20 0).2.getD 0 dummyProc).pid = 1 ∧
    kill_view (handle_toggle_sort (refresh_cycle stC4 inpC4 20 0).1)
      ≠ (refresh_cycle stC4 inpC4 20 0).2 := by
  have h1 : (kill_view (handle_toggle_sort (refresh_cycle stC4 inpC4 20 0).1)).map
      (fun p => p.pid) = [2, 1] := by
    norm_num [refresh_cycle, stC4, inpC4, st0, raw1, raw1z, raw2, total_cpu_time, idle_sum,
      usub64, effective_total_delta, update_cpu_percent, collect_processes, mk_procinfo,
      cpu_update_entry, lookup_old_total, mem_update_entry, sort_processes, procLE, cmpProc,
      handle_toggle_sort, next_sort, kill_view]
  have h2 : (refresh_cycle stC4 inpC4 20 0).2.map (fun p => p.pid) = [1, 2] := by
    norm_num [refresh_cycle, stC4, inpC4, st0, raw1, raw1z, raw2, total_cpu_time, idle_sum,
      usub64, effective_total_delta, update_cpu_percent, collect_processes, mk_procinfo,
      cpu_update_entry, lookup_old_total, mem_update_entry, sort_processes, procLE, cmpProc]
  refine ⟨h1, h2, ?_, ?_, ?_⟩
  · norm_num [refresh_cycle, stC4, inpC4, st0, raw1, raw1z, raw2, total_cpu_time, idle_sum,
      usub64, effective_total_delta, update_cpu_percent, collect_processes, mk_procinfo,
      cpu_update_entry, lookup_old_total, mem_update_entry, sort_processes, procLE, cmpProc,
      handle_toggle_sort, next_sort, kill_view, handle_kill, handle_force_refresh, dummyProc]
  · norm_num [refresh_cycle, stC4, inpC4, st0, raw1, raw1z, raw2, total_cpu_time, idle_sum,
      usub64, effective_total_delta, update_cpu_percent, collect_processes, mk_procinfo,
      cpu_update_entry, lookup_old_total, mem_update_entry, sort_processes, procLE, cmpProc,
      dummyProc]
  · intro heq
    rw [heq] at h1
    rw [h1] at h2
    exact absurd h2 (by norm_num)

/-- Claim C4 (amended): the kill-time list is the current process map sorted
    under the *current* sort mode. It coincides with the list rendered by the
    refresh cycle as long as no event since that render changed the sort mode
    (navigation keys and the forced-refresh key preserve it), and the pid
    handed to the kill dialog is the entry at the selection index of that
    kill-time list; a sort toggle, however, re-orders the kill-time list. -/
theorem c4_kill_targets_current_sort (st : LoopState) (inp : RefreshIn) (b now : Int) :
    kill_view (refresh_cycle st inp b now).1 = (refresh_cycle st inp b now).2 ∧
    (∀ s : LoopState, kill_view (handle_key_up s) = kill_view s ∧
      kill_view (handle_key_down s) = kill_view s ∧
      (∀ br : Int, kill_view (handle_page_down s br) = kill_view s ∧
        kill_view (handle_page_up s br) = kill_view s) ∧
      (∀ n r : Int, kill_view (handle_force_refresh s n r) = kill_view s)) ∧
    (∀ (s : LoopState) (n r : Int), 0 ≤ s.selected →
      s.selected < ((kill_view s).length : Int) →
      handle_kill s n r =
        (handle_force_refresh s n r,
         some (((kill_view s).getD s.selected.toNat dummyProc).pid))) := by
  refine ⟨?_, ?_, ?_⟩
  · show sort_processes st.sort_mode
        (update_cpu_percent st.old_procs (collect_processes inp.raws inp.mem_total_kb)
          st.old_total_cpu (total_cpu_time inp.cpu_fields)) =
      sort_processes st.sort_mode
        ((update_cpu_percent st.old_procs (collect_processes inp.raws inp.mem_total_kb)
          st.old_total_cpu (total_cpu_time inp.cpu_fields)).map
            (mem_update_entry inp.mem_total_kb))
    rw [mem_update_map_update_cpu]
  · intro s
    exact ⟨rfl, rfl, fun _ => ⟨rfl, rfl⟩, fun _ _ => rfl⟩
  · intro s n r h1 h2
    show (if 0 ≤ s.selected ∧ s.selected < ((kill_view s).length : Int) then
        (handle_force_refresh s n r,
         some (((kill_view s).getD s.selected.toNat dummyProc).pid))
      else (s, none)) =
      (handle_force_refresh s n r,
       some (((kill_view s).getD s.selected.toNat dummyProc).pid))
    rw [if_pos ⟨h1, h2⟩]

/-- Witness for C4 (amended) at a concrete in-bounds kill. -/
theorem c4_witness :
    0 ≤ stKill.selected ∧
    stKill.selected < ((kill_view stKill).length : Int) ∧
    handle_kill stKill 0 2 =
      (handle_force_refresh stKill 0 2,
       some (((kill_view stKill).getD stKill.selected.toNat dummyProc).pid)) :=
  ⟨by decide, by decide,
   (c4_kill_targets_current_sort st0 inpC1 20 0).2.2 stKill 0 2 (by decide) (by decide)⟩

/-- Claim C5 (counterexample): with the last rendered list of length 1 and the
    selection at index 0, a single KEY_DOWN event moves the selection to 1,
    which lies outside [0, 0] — the downward movement is not clamped at the
    moment the event is applied. -/
theorem c5_counterexample :
    stC5.selected = 0 ∧
    (refresh_cycle st0 inpC1 20 0).2.length = 1 ∧
    (handle_key_down stC5).selected = 1 ∧
    ¬((handle_key_down stC5).selected ≤
        ((refresh_cycle st0 inpC1 20 0).2.length : Int) - 1) := by
  refine ⟨by decide, by decide, by decide, by decide⟩

/-- Claim C5 (amended): the upward movements clamp at 0 at event time and
    KEY_UP only ever moves the scroll window up (to the new selection when it
    moved above the window); KEY_DOWN and page-down apply no clamp at event
    time; the selection is clamped into [0, max 0 (list length − 1)] at the
    next refresh cycle, not at the keypress. -/
theorem c5_clamp_at_refresh (st : LoopState) (body_rows : Int) (inp : RefreshIn) (b now : Int) :
    (0 ≤ st.selected → 0 ≤ (handle_key_up st).selected) ∧
    (handle_key_up st).page_offset ≤ st.page_offset ∧
    ((handle_key_up st).selected < st.page_offset →
      (handle_key_up st).page_offset = (handle_key_up st).selected) ∧
    0 ≤ (handle_page_up st body_rows).selected ∧
    (handle_key_down st).selected = st.selected + 1 ∧
    (handle_page_down st body_rows).selected = st.selected + max 1 body_rows ∧
    0 ≤ (refresh_cycle st inp b now).1.selected ∧
    (refresh_cycle st inp b now).1.selected ≤
      max 0 (((refresh_cycle st inp b now).2.length : Int) - 1) := by
  refine ⟨?_, ?_, ?_, ?_, rfl, rfl, ?_, ?_⟩
  · intro h
    simp only [handle_key_up]
    split_ifs <;> omega
  · simp only [handle_key_up]
    split_ifs <;> omega
  · intro h
    simp only [handle_key_up] at h ⊢
    split_ifs at h ⊢ <;> omega
  · simp only [handle_page_up]
    split_ifs <;> omega
  · simp only [refresh_cycle]
    split_ifs <;> omega
  · simp only [refresh_cycle]
    split_ifs <;> omega

/-- Witness for C5 (amended) at a concrete state. -/
theorem c5_witness :
    (0 ≤ stC5.selected → 0 ≤ (handle_key_up stC5).selected) ∧
    0 ≤ (refresh_cycle stC5 inpC1 20 0).1.selected :=
  ⟨(c5_clamp_at_refresh stC5 7 inpC1 20 0).1,
   (c5_clamp_at_refresh stC5 7 inpC1 20 0).2.2.2.2.2.2.1⟩

lemma update_cpu_pids (oldp : List ProcInfo) (ot nt m : Nat) (raws : List RawProc) :
    (update_cpu_percent oldp (collect_processes raws m) ot nt).map ProcInfo.pid =
      raws.map RawProc.pid := by
  unfold update_cpu_percent collect_processes
  simp only [List.map_map]
  apply List.map_congr_left
  intro r _
  rfl

/-- Claim C6: on any entry list with pairwise-distinct pids, each mode's
    comparator is a strict total order (irreflexive, transitive, connected on
    the list), CPU/MEM order by descending metric with ascending-pid
    tie-break and PID by ascending pid, the sort output is sorted, sorting is
    deterministic (every sorted permutation of the input equals the sort
    output), and sorting an already-sorted list leaves it unchanged. -/
theorem c6_sort_total_order (mode : SortMode) (l : List ProcInfo)
    (hnd : (l.map ProcInfo.pid).Nodup) :
    (∀ a : ProcInfo, cmpProc mode a a = false) ∧
    (∀ a b c : ProcInfo, cmpProc mode a b = true → cmpProc mode b c = true →
      cmpProc mode a c = true) ∧
    (∀ a ∈ l, ∀ b ∈ l, a ≠ b → (cmpProc mode a b = true ↔ cmpProc mode b a = false)) ∧
    (∀ a b : ProcInfo, cmpProc SortMode.cpu a b = true ↔
      (b.cpu_percent < a.cpu_percent ∨ (a.cpu_percent = b.cpu_percent ∧ a.pid < b.pid))) ∧
    (∀ a b : ProcInfo, cmpProc SortMode.mem a b = true ↔
      (b.mem_percent < a.mem_percent ∨ (a.mem_percent = b.mem_percent ∧ a.pid < b.pid))) ∧
    (∀ a b : ProcInfo, cmpProc SortMode.pid a b = true ↔ a.pid < b.pid) ∧
    List.Sorted (procLE mode) (sort_processes mode l) ∧
    (∀ l2 : List ProcInfo, l.Perm l2 → List.Sorted (procLE mode) l2 →
      l2 = sort_processes mode l) ∧
    sort_processes mode (sort_processes mode l) = sort_processes mode l := by
  refine ⟨?_, ?_, ?_, ?_, ?_, ?_, sort_processes_sorted mode l, ?_, ?_⟩
  · intro a
    cases mode <;> simp [cmpProc]
  · intro a b c h1 h2
    rw [cmpProc_eq_true_iff] at h1 h2 ⊢
    rcases h1 with h1 | ⟨h1e, h1p⟩ <;> rcases h2 with h2 | ⟨h2e, h2p⟩
    · exact Or.inl (h2.trans h1)
    · exact Or.inl (h2e ▸ h1)
    · exact Or.inl (h1e.symm ▸ h2)
    · exact Or.inr ⟨h1e.trans h2e, Nat.lt_trans h1p h2p⟩
  · intro a ha b hb hne
    have hpid : a.pid ≠ b.pid := fun h => hne (List.inj_on_of_nodup_map hnd ha hb h)
    constructor
    · intro h
      rw [cmpProc_eq_true_iff] at h
      rw [cmpProc_eq_false_iff]
      rcases h with h | ⟨he, hp⟩
      · exact Or.inl h
      · exact Or.inr ⟨he.symm, le_of_lt hp⟩
    · intro h
      rw [cmpProc_eq_false_iff] at h
      rw [cmpProc_eq_true_iff]
      rcases h with h | ⟨he, hp⟩
      · exact Or.inl h
      · exact Or.inr ⟨he.symm, lt_of_le_of_ne hp hpid⟩
  · intro a b
    rw [cmpProc_eq_true_iff]
    simp only [keyOf]
  · intro a b
    rw [cmpProc_eq_true_iff]
    simp only [keyOf]
  · intro a b
    rw [cmpProc_eq_true_iff]
    simp [keyOf]
  · intro l2 hperm hsort
    have hnd2 : (l2.map ProcInfo.pid).Nodup := ((hperm.map ProcInfo.pid).nodup_iff).mp hnd
    apply sorted_perm_eq_on l2 (sort_processes mode l)
      (hperm.symm.trans (sort_processes_perm mode l).symm) hsort
      (sort_processes_sorted mode l)
    intro a ha b hb hab hba
    exact List.inj_on_of_nodup_map hnd2 ha hb (procLE_antisymm_pid mode a b hab hba)
  · exact (sort_processes_sorted mode l).insertionSort_eq

/-- Witness for C6 at a concrete two-entry list with distinct pids. -/
theorem c6_witness :
    ([mk_procinfo 1000 raw1, mk_procinfo 1000 raw2].map ProcInfo.pid).Nodup ∧
    sort_processes SortMode.cpu (sort_processes SortMode.cpu
      [mk_procinfo 1000 raw1, mk_procinfo 1000 raw2]) =
      sort_processes SortMode.cpu [mk_procinfo 1000 raw1, mk_procinfo 1000 raw2] :=
  ⟨by decide,
   (c6_sort_total_order SortMode.cpu [mk_procinfo 1000 raw1, mk_procinfo 1000 raw2]
     (by decide)).2.2.2.2.2.2.2.2⟩

/-- Claim C7: a pid absent from the current enumeration appears neither in the
    rendered list nor in the controller state after the refresh cycle — the
    current map is rebuilt from scratch and the previous map is then replaced
    by it. -/
theorem c7_exited_pid_dropped (st : LoopState) (inp : RefreshIn) (b now : Int) (pid : Nat)
    (hgone : pid ∉ inp.raws.map RawProc.pid) :
    pid ∉ (refresh_cycle st inp b now).2.map ProcInfo.pid ∧
    pid ∉ (refresh_cycle st inp b now).1.cur_procs.map ProcInfo.pid ∧
    pid ∉ (refresh_cycle st inp b now).1.old_procs.map ProcInfo.pid := by
  refine ⟨?_, ?_, ?_⟩
  · intro h
    obtain ⟨p, hp, hpe⟩ := List.mem_map.mp h
    have hp2 : p ∈ sort_processes st.sort_mode
        ((update_cpu_percent st.old_procs (collect_processes inp.raws inp.mem_total_kb)
          st.old_total_cpu (total_cpu_time inp.cpu_fields)).map
            (mem_update_entry inp.mem_total_kb)) := hp
    rw [mem_sort_processes] at hp2
    obtain ⟨q, hq, hqe⟩ := List.mem_map.mp hp2
    apply hgone
    rw [← update_cpu_pids st.old_procs st.old_total_cpu (total_cpu_time inp.cpu_fields)
      inp.mem_total_kb inp.raws]
    refine List.mem_map.mpr ⟨q, hq, ?_⟩
    calc q.pid = (mem_update_entry inp.mem_total_kb q).pid := (mem_update_entry_pid _ _).symm
      _ = p.pid := by rw [hqe]
      _ = pid := hpe
  · intro h
    apply hgone
    have h2 : pid ∈ (update_cpu_percent st.old_procs
        (collect_processes inp.raws inp.mem_total_kb)
        st.old_total_cpu (total_cpu_time inp.cpu_fields)).map ProcInfo.pid := h
    rwa [update_cpu_pids] at h2
  · intro h
    apply hgone
    have h2 : pid ∈ (update_cpu_percent st.old_procs
        (collect_processes inp.raws inp.mem_total_kb)
        st.old_total_cpu (total_cpu_time inp.cpu_fields)).map ProcInfo.pid := h
    rwa [update_cpu_pids] at h2

/-- Witness for C7: pid 99 was not enumerated, so it is nowhere after the
    cycle. -/
theorem c7_witness :
    (99 : Nat) ∉ inpC1.raws.map RawProc.pid ∧
    ((99 : Nat) ∉ (refresh_cycle st0 inpC1 20 0).2.map ProcInfo.pid ∧
     (99 : Nat) ∉ (refresh_cycle st0 inpC1 20 0).1.cur_procs.map ProcInfo.pid ∧
     (99 : Nat) ∉ (refresh_cycle st0 inpC1 20 0).1.old_procs.map ProcInfo.pid) :=
  ⟨by decide, c7_exited_pid_dropped st0 inpC1 20 0 99 (by decide)⟩

/-- Claim C8: every rendered entry's mem_percent is
    100 × resident KB / current memory total — a function of the current
    snapshot alone (the previous state `st` is arbitrary and absent from the
    conclusion). -/
theorem c8_mem_percent_current_only (st : LoopState) (inp : RefreshIn) (b now : Int)
    (hm : 0 < inp.mem_total_kb) :
    ∀ p ∈ (refresh_cycle st inp b now).2,
      p.mem_percent = 100 * (p.mem_kb : ℚ) / (inp.mem_total_kb : ℚ) := by
  intro p hp
  have hp2 : p ∈ sort_processes st.sort_mode
      ((update_cpu_percent st.old_procs (collect_processes inp.raws inp.mem_total_kb)
        st.old_total_cpu (total_cpu_time inp.cpu_fields)).map
          (mem_update_entry inp.mem_total_kb)) := hp
  rw [mem_sort_processes] at hp2
  obtain ⟨q, _, rfl⟩ := List.mem_map.mp hp2
  rw [mem_update_entry_mem_kb]
  show (if 0 < inp.mem_total_kb then 100 * (q.mem_kb : ℚ) / (inp.mem_total_kb : ℚ) else 0) = _
  rw [if_pos hm]

/-- Witness for C8: 800,000 KB resident of an 8,000,000 KB total renders as
    exactly 10%. -/
theorem c8_witness :
    0 < inpC8.mem_total_kb ∧
    (∀ p ∈ (refresh_cycle st0 inpC8 20 0).2,
      p.mem_percent = 100 * (p.mem_kb : ℚ) / (inpC8.mem_total_kb : ℚ)) ∧
    (refresh_cycle st0 inpC8 20 0).2.map (fun p => p.mem_percent) = [10] :=
  ⟨by decide, c8_mem_percent_current_only st0 inpC8 20 0 (by decide), by
    norm_num [refresh_cycle, st0, inpC8, total_cpu_time, idle_sum, usub64,
      effective_total_delta, update_cpu_percent, collect_processes, mk_procinfo,
      cpu_update_entry, lookup_old_total, mem_update_entry, sort_processes]⟩

/-- Claim C9 (counterexample): the argument "2147483648" is numeric and ≥ 1,
    but stoi throws out_of_range on it (it exceeds int), the catch block
    falls back to the default, and the refresh interval becomes 2, not the
    given value. -/
theorem c9_counterexample :
    parse_int argBig = some 2147483648 ∧
    (1 : Int) ≤ 2147483648 ∧
    refresh_of_arg (some argBig) = 2 ∧
    (2 : Int) ≠ 2147483648 :=
  ⟨by decide, by decide, by decide, by decide⟩

/-- Claim C9 (amended): a missing argument gives the default 2; an argument
    with no parsable integer gives 2; a parsed value outside the 32-bit int
    range gives 2 (stoi's out_of_range is caught, the value is not used); an
    in-range value below 1 is clamped to 1; an in-range value ≥ 1 is used as
    given; parsing is a total function (never aborts) and normal quit returns
    exit code 0. -/
theorem c9_cli_parsing :
    refresh_of_arg none = 2 ∧
    (∀ cs : List Char, parse_int cs = none → refresh_of_arg (some cs) = 2) ∧
    (∀ (cs : List Char) (v : Int), parse_int cs = some v →
      (v < -(2 ^ 31) ∨ 2 ^ 31 ≤ v) → refresh_of_arg (some cs) = 2) ∧
    (∀ (cs : List Char) (v : Int), parse_int cs = some v →
      -(2 ^ 31) ≤ v → v < 1 → refresh_of_arg (some cs) = 1) ∧
    (∀ (cs : List Char) (v : Int), parse_int cs = some v →
      1 ≤ v → v < 2 ^ 31 → refresh_of_arg (some cs) = v) ∧
    quit_exit_code = 0 := by
  refine ⟨rfl, ?_, ?_, ?_, ?_, rfl⟩
  · intro cs h
    have hs : stoi_model cs = none := by
      unfold stoi_model
      rw [h]
      rfl
    simp only [refresh_of_arg, hs]
  · intro cs v h hr
    have hs : stoi_model cs = none := by
      unfold stoi_model
      rw [h]
      show (if -(2 ^ 31) ≤ v ∧ v < 2 ^ 31 then some v else none) = none
      rw [if_neg (by omega)]
    simp only [refresh_of_arg, hs]
  · intro cs v h h1 h2
    have hs : stoi_model cs = some v := by
      unfold stoi_model
      rw [h]
      show (if -(2 ^ 31) ≤ v ∧ v < 2 ^ 31 then some v else none) = some v
      rw [if_pos ⟨h1, by omega⟩]
    simp only [refresh_of_arg, hs]
    rw [if_pos h2]
  · intro cs v h h1 h2
    have hs : stoi_model cs = some v := by
      unfold stoi_model
      rw [h]
      show (if -(2 ^ 31) ≤ v ∧ v < 2 ^ 31 then some v else none) = some v
      rw [if_pos ⟨by omega, h2⟩]
    simp only [refresh_of_arg, hs]
    rw [if_neg (by omega)]

/-- Witness for C9 (amended) on the concrete arguments "-3", "ab" and "5". -/
theorem c9_witness :
    parse_int ['a', 'b'] = none ∧ refresh_of_arg (some ['a', 'b']) = 2 ∧
    parse_int ['-', '3'] = some (-3) ∧ refresh_of_arg (some ['-', '3']) = 1 ∧
    parse_int ['5'] = some 5 ∧ refresh_of_arg (some ['5']) = 5 :=
  ⟨by decide,
   (c9_cli_parsing).2.1 ['a', 'b'] (by decide),
   by decide,
   (c9_cli_parsing).2.2.2.1 ['-', '3'] (-3) (by decide) (by decide) (by decide),
   by decide,
   (c9_cli_parsing).2.2.2.2.1 ['5'] 5 (by decide) (by decide) (by decide)⟩

/-- Claim C10: the kill keypress with an empty process map or an out-of-range
    selection opens no confirmation dialog, sends no signal, performs no list
    access, and leaves the whole interaction state — sort mode, selection,
    scroll offset, both process maps and the refresh timer — unchanged. -/
theorem c10_kill_guard (st : LoopState) (now rs : Int)
    (h : st.cur_procs = [] ∨ st.selected < 0 ∨
      (st.cur_procs.length : Int) ≤ st.selected) :
    handle_kill st now rs = (st, none) := by
  have hlen : (kill_view st).length = st.cur_procs.length :=
    (sort_processes_perm st.sort_mode st.cur_procs).length_eq
  show (if 0 ≤ st.selected ∧ st.selected < ((kill_view st).length : Int) then
      (handle_force_refresh st now rs,
       some (((kill_view st).getD st.selected.toNat dummyProc).pid))
    else (st, none)) = (st, none)
  rw [if_neg]
  rintro ⟨h1, h2⟩
  rw [hlen] at h2
  rcases h with h | h | h
  · rw [h] at h2
    simp only [List.length_nil, Nat.cast_zero] at h2
    omega
  · omega
  · omega

/-- Witness for C10 at a concrete empty-map state with selection 3. -/
theorem c10_witness :
    (stC10.cur_procs = [] ∨ stC10.selected < 0 ∨
      (stC10.cur_procs.length : Int) ≤ stC10.selected) ∧
    handle_kill stC10 0 2 = (stC10, none) :=
  ⟨Or.inl rfl, c10_kill_guard stC10 0 2 (Or.inl rfl)⟩
